import Mathlib

/-!
# Schema-Jenerator: verification of the tiered JSON-schema inference core

Shallow embedding of the schema-generation core of the Schema-Jenerator
repository (`src/schema.rs`, with the equivalent split implementation in
`src/schema/mod.rs`, `src/schema/generators.rs`, `src/schema/types.rs`).

The embedding mirrors the Rust source:
* `JNumber` models `serde_json::Number` (internally one of `u64`, negative
  `i64`, or `f64`; the float payload is carried as the exact rational value
  of the `f64`, which never holds NaN or infinities in `serde_json`).
* `Json` models `serde_json::Value`; objects are ordered key/value lists
  (iteration order of the map), matching the insertion-order map demanded
  by the spec for deterministic output.
* `Json.setField` models `schema["key"] = v` on an object value: replace in
  place when the key exists, append otherwise.
* Each `generate_*` function is a direct translation of the corresponding
  Rust function; fallible signatures (`anyhow::Result`) become
  `Except String`.
* The Rust casts `u64 as f64` / `i64 as f64` (IEEE round to nearest, ties
  to even) are modelled exactly by `u64ToF64` / `intToF64`; `f64` values
  already held in a number are passed through unchanged.  The only float
  arithmetic in the source, `value ± 1000.0` at Comprehensive/Expert, is
  modelled as exact rational arithmetic; the source is unguarded there
  (spec §7) and no claim below depends on those two field values.  The
  `i64` arithmetic `value ± 1000` is likewise modelled exactly.
-/

namespace SchemaJen

/-- Model of `serde_json::Number`: a non-negative integer stored as `u64`
(`PosInt`), a negative integer stored as `i64` (`NegInt`), or a finite
double (`Float`), carried as its exact rational value. -/
inductive JNumber where
  | posInt (n : Nat)
  | negInt (i : Int)
  | float (q : ℚ)
  deriving DecidableEq, Repr

/-- `i64::MAX` as a natural number. -/
def i64Max : Nat := 9223372036854775807

/-- Structural binary logarithm with explicit fuel; `log2Fuel fuel n`
equals `floor (log2 n)` whenever `n < 2 ^ fuel` (we only apply it with
fuel 64 to values below `2 ^ 64`). -/
def log2Fuel : Nat → Nat → Nat
  | 0, _ => 0
  | fuel + 1, n => if 2 ≤ n then log2Fuel fuel (n / 2) + 1 else 0

/-- The Rust cast `n as f64` on a `u64`, IEEE-754 round to nearest, ties
to even: values below `2 ^ 53` are exact; larger values are rounded to 53
significant bits.  The result is returned as the exact natural number the
resulting double denotes. -/
def u64ToF64 (n : Nat) : Nat :=
  if n < 2 ^ 53 then n
  else
    let s := log2Fuel 64 n - 52
    let q := n / 2 ^ s
    let r := n % 2 ^ s
    let half := 2 ^ s / 2
    let q' := if half < r ∨ (r = half ∧ q % 2 = 1) then q + 1 else q
    q' * 2 ^ s

/-- The Rust cast `i as f64` on an `i64`, as an exact rational. -/
def intToF64 (i : Int) : ℚ :=
  if 0 ≤ i then (u64ToF64 i.toNat : ℚ) else -(u64ToF64 (-i).toNat : ℚ)

/-- `serde_json::Number::is_i64`: true exactly when the stored
representation fits `i64` (floats always report false). -/
def JNumber.is_i64 : JNumber → Bool
  | .posInt n => n ≤ i64Max
  | .negInt _ => true
  | .float _ => false

/-- `serde_json::Number::is_u64`: true exactly when the stored
representation is a non-negative integer. -/
def JNumber.is_u64 : JNumber → Bool
  | .posInt _ => true
  | .negInt _ => false
  | .float _ => false

/-- `serde_json::Number::as_i64`. -/
def JNumber.as_i64 : JNumber → Option Int
  | .posInt n => if n ≤ i64Max then some (n : Int) else none
  | .negInt i => some i
  | .float _ => none

/-- `serde_json::Number::as_f64`: floats are returned as stored, integer
representations go through the `as f64` cast. -/
def JNumber.as_f64 : JNumber → Option ℚ
  | .posInt n => some (u64ToF64 n : ℚ)
  | .negInt i => some (intToF64 i)
  | .float q => some q

/-- Whether the number is stored in the float representation. -/
def JNumber.isFloat : JNumber → Bool
  | .float _ => true
  | _ => false

/-- The exact numeric value denoted by a `serde_json::Number`. -/
def JNumber.toRat : JNumber → ℚ
  | .posInt n => (n : ℚ)
  | .negInt i => (i : ℚ)
  | .float q => q

/-- `serde_json::Number::from` on an `i64` (`json!(n_val)`): negative
values use the negative-integer representation, others the non-negative
one. -/
def jsonFromI64 (v : Int) : JNumber :=
  if v < 0 then .negInt v else .posInt v.toNat

/-- Model of `serde_json::Value`.  Objects are the ordered key/value lists
seen when iterating the map. -/
inductive Json where
  | null
  | bool (b : Bool)
  | num (n : JNumber)
  | str (s : String)
  | arr (xs : List Json)
  | obj (fields : List (String × Json))
  deriving Repr

/-- `serde_json::Value::is_null`. -/
def Json.is_null : Json → Bool
  | .null => true
  | _ => false

/-- Insert-or-replace on an ordered field list: the map update performed
by `schema["key"] = v`. -/
def setPair : List (String × Json) → String → Json → List (String × Json)
  | [], k, v => [(k, v)]
  | (k', v') :: rest, k, v =>
    if k' = k then (k, v) :: rest else (k', v') :: setPair rest k v

/-- Key lookup on an ordered field list. -/
def getPair : List (String × Json) → String → Option Json
  | [], _ => none
  | (k', v') :: rest, k => if k' = k then some v' else getPair rest k

/-- `schema["key"] = v` on an object value (all assignment receivers in the
source are objects, so the non-object case is inert). -/
def Json.setField (j : Json) (k : String) (v : Json) : Json :=
  match j with
  | .obj fs => .obj (setPair fs k v)
  | other => other

/-- Field lookup on an object value. -/
def Json.getField? (j : Json) (k : String) : Option Json :=
  match j with
  | .obj fs => getPair fs k
  | _ => none

/-- The top-level field names of a schema document, in order. -/
def Json.topKeys : Json → List String
  | .obj fs => fs.map Prod.fst
  | _ => []

/-- The four output tiers (`SchemaOutputTier` in `src/schema.rs`), ordered
Basic < Standard < Comprehensive < Expert. -/
inductive SchemaOutputTier where
  | basic | standard | comprehensive | expert
  deriving DecidableEq, Repr

/-- Rust `s.contains('@')` etc.: some character of the string equals the
given one. -/
def strContainsChar (s : String) (c : Char) : Bool :=
  s.data.contains c

/-- Rust `s.starts_with(p)` for the ASCII pattern used in the source: the
characters of `p` are a prefix of the characters of `s` (equivalent to the
byte-level prefix test because the pattern is ASCII). -/
def strStartsWith (s p : String) : Bool :=
  List.isPrefixOf p.data s.data

/-- Rust `s.chars().all(|c| c.is_ascii_digit() || c == '-' || c == ' ')`
from `generate_string_schema` / `detect_string_pattern`. -/
def allDigitDashSpace (s : String) : Bool :=
  s.data.all (fun c => c.isDigit || c == '-' || c == ' ')

/-- Rust `s.is_empty()` (zero bytes, equivalently zero characters). -/
def strIsEmpty (s : String) : Bool :=
  s.data.isEmpty

/-- Rust `s.len()`: the UTF-8 byte length of the string. -/
def strByteLen (s : String) : Nat :=
  s.utf8ByteSize

/-- `detect_string_format` from `src/schema/types.rs`: email beats uri;
the all-digit branch deliberately yields no format. -/
def detect_string_format (s : String) : Option String :=
  if strContainsChar s '@' && strContainsChar s '.' then some "email"
  else if strStartsWith s "http" then some "uri"
  else if allDigitDashSpace s then none
  else none

/-- `detect_string_pattern` from `src/schema/types.rs`. -/
def detect_string_pattern (s : String) : Option String :=
  if allDigitDashSpace s then some "^[\\d\\-\\s]+$" else none

/-- The top-level kind tag of a value, as named in `get_array_item_types`
(`src/schema/types.rs`) and `generate_array_schema` (`src/schema.rs`). -/
def kind_tag : Json → String
  | .obj _ => "object"
  | .arr _ => "array"
  | .str _ => "string"
  | .num _ => "number"
  | .bool _ => "boolean"
  | .null => "null"

/-- `get_array_item_types`: the set of element kind tags, modelled as the
deduplicated tag list (only its cardinality and membership are ever
used). -/
def get_array_item_types (arr : List Json) : List String :=
  (arr.map kind_tag).dedup

/-- `is_homogeneous_array` from `src/schema/types.rs`. -/
def is_homogeneous_array (arr : List Json) : Bool :=
  (get_array_item_types arr).length ≤ 1

/-- `generate_null_schema`. -/
def generate_null_schema : Except String Json :=
  .ok (Json.obj [("type", .str "null")])

/-- `generate_boolean_schema`. -/
def generate_boolean_schema (value : Json) (tier : SchemaOutputTier) :
    Except String Json :=
  let schema := Json.obj [("type", .str "boolean")]
  let schema :=
    match value with
    | .bool b =>
      match tier with
      | .basic | .standard => schema
      | .comprehensive => schema.setField "examples" (.arr [.bool b])
      | .expert =>
        ((schema.setField "examples" (.arr [.bool b])).setField
          "title" (.str "Generated Boolean Schema")).setField
          "description" (.str "Boolean value from JSON data")
    | _ => schema
  .ok schema

/-- `generate_number_schema`.  The source checks `as_i64` first and falls
back to `as_f64` (which never fails), so the integer branch only fires for
values representable as `i64`. -/
def generate_number_schema (n : JNumber) (tier : SchemaOutputTier) :
    Except String Json :=
  let schema := Json.obj []
  let schema :=
    if n.is_i64 || n.is_u64 then schema.setField "type" (.str "integer")
    else schema.setField "type" (.str "number")
  let schema :=
    match tier with
    | .basic => schema
    | .standard =>
      match n.as_i64 with
      | some v => schema.setField "minimum" (.num (jsonFromI64 v))
      | none =>
        match n.as_f64 with
        | some q => schema.setField "minimum" (.num (.float q))
        | none => schema
    | .comprehensive =>
      match n.as_i64 with
      | some v =>
        ((schema.setField "examples" (.arr [.num (jsonFromI64 v)])).setField
          "minimum" (.num (jsonFromI64 (v - 1000)))).setField
          "maximum" (.num (jsonFromI64 (v + 1000)))
      | none =>
        match n.as_f64 with
        | some q =>
          ((schema.setField "examples" (.arr [.num (.float q)])).setField
            "minimum" (.num (.float (q - 1000)))).setField
            "maximum" (.num (.float (q + 1000)))
        | none => schema
    | .expert =>
      match n.as_i64 with
      | some v =>
        ((((schema.setField "examples" (.arr [.num (jsonFromI64 v)])).setField
          "minimum" (.num (jsonFromI64 (v - 1000)))).setField
          "maximum" (.num (jsonFromI64 (v + 1000)))).setField
          "multipleOf" (.num (.posInt 1))).setField
          "title" (.str "Generated Integer Schema")
      | none =>
        match n.as_f64 with
        | some q =>
          (((schema.setField "examples" (.arr [.num (.float q)])).setField
            "minimum" (.num (.float (q - 1000)))).setField
            "maximum" (.num (.float (q + 1000)))).setField
            "title" (.str "Generated Number Schema")
        | none => schema
  .ok schema

/-- `generate_string_schema`. -/
def generate_string_schema (value : Json) (tier : SchemaOutputTier) :
    Except String Json :=
  let schema := Json.obj [("type", .str "string")]
  let schema :=
    match value with
    | .str s =>
      match tier with
      | .basic => schema
      | .standard => schema.setField "minLength" (.num (.posInt 0))
      | .comprehensive =>
        let schema := schema.setField "minLength" (.num (.posInt 0))
        let schema :=
          schema.setField "maxLength" (.num (.posInt (strByteLen s * 2)))
        if strIsEmpty s then schema
        else schema.setField "examples" (.arr [.str s])
      | .expert =>
        let schema := schema.setField "minLength" (.num (.posInt 0))
        let schema :=
          schema.setField "maxLength" (.num (.posInt (strByteLen s * 2)))
        let schema :=
          if strIsEmpty s then schema
          else
            let schema := schema.setField "examples" (.arr [.str s])
            if strContainsChar s '@' && strContainsChar s '.' then
              schema.setField "format" (.str "email")
            else if strStartsWith s "http" then
              schema.setField "format" (.str "uri")
            else if allDigitDashSpace s then
              schema.setField "pattern" (.str "^[\\d\\-\\s]+$")
            else schema
        schema.setField "title" (.str "Generated String Schema")
    | _ => schema
  .ok schema

/-- The required-property names collected by the per-entry loop of
`generate_object_schema` (the loop also builds the property schemas; the
two accumulations are independent, so the name collection is split out
here as the pure part). -/
def required_props : List (String × Json) → SchemaOutputTier → List Json
  | [], _ => []
  | (k, v) :: rest, tier =>
    let tail := required_props rest tier
    match tier with
    | .basic => tail
    | .standard => if v.is_null then tail else .str k :: tail
    | .comprehensive | .expert => .str k :: tail

mutual

/-- `generate_schema`: the dispatcher, total over the six value kinds. -/
def generate_schema (value : Json) (tier : SchemaOutputTier) :
    Except String Json :=
  match value with
  | .obj fields => generate_object_schema fields tier
  | .arr xs => generate_array_schema xs tier
  | .str s => generate_string_schema (.str s) tier
  | .num n => generate_number_schema n tier
  | .bool b => generate_boolean_schema (.bool b) tier
  | .null => generate_null_schema

/-- `generate_object_schema`. -/
def generate_object_schema (obj : List (String × Json))
    (tier : SchemaOutputTier) : Except String Json := do
  let schema := Json.obj [("type", .str "object"), ("properties", .obj [])]
  let schema :=
    match tier with
    | .comprehensive | .expert =>
      schema.setField "$schema"
        (.str "https://json-schema.org/draft/2020-12/schema")
    | _ => schema
  let props ← gen_properties obj tier
  let schema := schema.setField "properties" (.obj props)
  let reqs := required_props obj tier
  let schema := if reqs.isEmpty then schema else schema.setField "required" (.arr reqs)
  let schema :=
    match tier with
    | .basic => schema
    | .standard => schema.setField "additionalProperties" (.bool true)
    | .comprehensive =>
      (schema.setField "additionalProperties" (.bool false)).setField
        "minProperties" (.num (.posInt 1))
    | .expert =>
      (((schema.setField "additionalProperties" (.bool false)).setField
        "minProperties" (.num (.posInt 1))).setField
        "title" (.str "Generated Object Schema")).setField
        "description" (.str "Auto-generated schema from JSON data")
  .ok schema

/-- The per-entry recursion of `generate_object_schema` building the
`properties` map in iteration order. -/
def gen_properties (fields : List (String × Json)) (tier : SchemaOutputTier) :
    Except String (List (String × Json)) :=
  match fields with
  | [] => .ok []
  | (k, v) :: rest => do
    let s ← generate_schema v tier
    let others ← gen_properties rest tier
    .ok ((k, s) :: others)

/-- `generate_array_schema`.  In the non-empty branch the source's
`!arr.is_empty()` guards are kept literally. -/
def generate_array_schema (arr : List Json) (tier : SchemaOutputTier) :
    Except String Json :=
  match arr with
  | [] => .ok (Json.obj [("type", .str "array"), ("items", .obj [])])
  | x :: rest => do
    let schema := Json.obj [("type", .str "array")]
    let schema ←
      if (get_array_item_types (x :: rest)).length == 1 then do
        let item_schema ← generate_schema x tier
        pure (schema.setField "items" item_schema)
      else do
        let item_schemas ← gen_items_list (x :: rest) tier
        pure (schema.setField "items" (Json.obj [("oneOf", .arr item_schemas)]))
    let schema :=
      match tier with
      | .basic => schema
      | .standard =>
        if (x :: rest : List Json).isEmpty then schema
        else schema.setField "minItems" (.num (.posInt 0))
      | .comprehensive =>
        if (x :: rest : List Json).isEmpty then schema
        else
          (schema.setField "minItems" (.num (.posInt 1))).setField
            "maxItems" (.num (.posInt ((x :: rest).length * 2)))
      | .expert =>
        if (x :: rest : List Json).isEmpty then schema
        else
          ((((schema.setField "minItems" (.num (.posInt 1))).setField
            "maxItems" (.num (.posInt ((x :: rest).length * 2)))).setField
            "uniqueItems" (.bool true)).setField
            "title" (.str "Generated Array Schema")).setField
            "description" (.str "Auto-generated array schema from JSON data")
    .ok schema

/-- The per-element recursion of the heterogeneous branch of
`generate_array_schema`, building the `oneOf` list in order. -/
def gen_items_list (xs : List Json) (tier : SchemaOutputTier) :
    Except String (List Json) :=
  match xs with
  | [] => .ok []
  | x :: rest => do
    let s ← generate_schema x tier
    let others ← gen_items_list rest tier
    .ok (s :: others)

end

/-- The schema produced for a value at a tier (the `Ok` payload of
`generate_schema`; totality is proved below). -/
def schemaOf (value : Json) (tier : SchemaOutputTier) : Json :=
  (generate_schema value tier).toOption.getD .null

/-- Adjacency in the tier order Basic < Standard < Comprehensive <
Expert. -/
def tier_adjacent : SchemaOutputTier → SchemaOutputTier → Bool
  | .basic, .standard => true
  | .standard, .comprehensive => true
  | .comprehensive, .expert => true
  | _, _ => false

/-- Closed form of `gen_properties`: each key mapped to its child schema,
in iteration order. -/
def propsOf (fields : List (String × Json)) (tier : SchemaOutputTier) :
    List (String × Json) :=
  fields.map (fun p => (p.1, schemaOf p.2 tier))

/-- Closed form of `gen_items_list`: the element schemas in order. -/
def itemsOf (xs : List Json) (tier : SchemaOutputTier) : List Json :=
  xs.map (fun x => schemaOf x tier)

/-! ## Basic lemmas about field lists -/

theorem getPair_setPair_self (fs : List (String × Json)) (k : String) (v : Json) :
    getPair (setPair fs k v) k = some v := by
  induction fs with
  | nil => simp [setPair, getPair]
  | cons p rest ih =>
    obtain ⟨k', v'⟩ := p
    by_cases h : k' = k <;> simp [setPair, getPair, h, ih]

theorem getPair_setPair_ne (fs : List (String × Json)) (k k' : String) (v : Json)
    (h : k' ≠ k) : getPair (setPair fs k v) k' = getPair fs k' := by
  induction fs with
  | nil => simp [setPair, getPair, Ne.symm h]
  | cons p rest ih =>
    obtain ⟨k₀, v₀⟩ := p
    by_cases h0 : k₀ = k
    · subst h0
      simp [setPair, getPair, Ne.symm h]
    · by_cases h1 : k₀ = k' <;> simp [setPair, getPair, h0, h1, h, ih]

theorem getField_setField_self (fs : List (String × Json)) (k : String) (v : Json) :
    ((Json.obj fs).setField k v).getField? k = some v := by
  simp [Json.setField, Json.getField?, getPair_setPair_self]

theorem getField_setField_ne (j : Json) (k k' : String) (v : Json) (h : k' ≠ k) :
    (j.setField k v).getField? k' = j.getField? k' := by
  cases j <;> simp [Json.setField, Json.getField?, getPair_setPair_ne _ _ _ _ h]

theorem getPair_eq_none_iff (fs : List (String × Json)) (k : String) :
    getPair fs k = none ↔ k ∉ fs.map Prod.fst := by
  induction fs with
  | nil => simp [getPair]
  | cons p rest ih =>
    obtain ⟨k', v'⟩ := p
    by_cases h : k' = k
    · subst h
      simp [getPair]
    · rw [show getPair ((k', v') :: rest) k = getPair rest k from by
        simp [getPair, h], ih, List.map_cons, List.mem_cons]
      constructor
      · intro hnm hc
        rcases hc with hc | hc
        · exact h hc.symm
        · exact hnm hc
      · intro hc hm
        exact hc (Or.inr hm)

theorem mem_keys_setPair (fs : List (String × Json)) (k a : String) (v : Json) :
    a ∈ (setPair fs k v).map Prod.fst ↔ a ∈ fs.map Prod.fst ∨ a = k := by
  induction fs with
  | nil => simp [setPair]
  | cons p rest ih =>
    obtain ⟨k', v'⟩ := p
    by_cases h : k' = k
    · subst h
      rw [show setPair ((k', v') :: rest) k' v = (k', v) :: rest from by
        simp [setPair]]
      simp only [List.map_cons, List.mem_cons]
      tauto
    · rw [show setPair ((k', v') :: rest) k v = (k', v') :: setPair rest k v from by
        simp [setPair, h]]
      simp only [List.map_cons, List.mem_cons, ih]
      tauto

theorem topKeys_setField (fs : List (String × Json)) (k a : String) (v : Json) :
    a ∈ ((Json.obj fs).setField k v).topKeys ↔ a ∈ (Json.obj fs).topKeys ∨ a = k := by
  simp only [Json.setField, Json.topKeys]
  exact mem_keys_setPair fs k a v

/-! ## Totality of the dispatcher -/

theorem generate_schema_total (value : Json) (tier : SchemaOutputTier) :
    ∃ s, generate_schema value tier = .ok s := by
  refine generate_schema.induct
    (fun j t => ∃ s, generate_schema j t = .ok s)
    (fun xs t => ∃ s, generate_array_schema xs t = .ok s)
    (fun xs t => ∃ l, gen_items_list xs t = .ok l)
    (fun fs t => ∃ s, generate_object_schema fs t = .ok s)
    (fun fs t => ∃ l, gen_properties fs t = .ok l)
    ?_ ?_ ?_ ?_ ?_ ?_ ?_ ?_ ?_ ?_ ?_ ?_ ?_ ?_ value tier
  · intro t fs ⟨s, h⟩
    unfold generate_schema
    exact ⟨s, h⟩
  · intro t xs ⟨s, h⟩
    unfold generate_schema
    exact ⟨s, h⟩
  · intro t s
    unfold generate_schema
    exact ⟨_, rfl⟩
  · intro t n
    unfold generate_schema
    exact ⟨_, rfl⟩
  · intro t b
    unfold generate_schema
    exact ⟨_, rfl⟩
  · intro t
    unfold generate_schema
    exact ⟨_, rfl⟩
  · intro t
    unfold generate_array_schema
    exact ⟨_, rfl⟩
  · intro t x rest hc ⟨s1, h1⟩
    unfold generate_array_schema
    rw [hc, if_pos rfl, h1]
    exact ⟨_, rfl⟩
  · intro t x rest hc ⟨l, h2⟩
    rw [Bool.not_eq_true] at hc
    unfold generate_array_schema
    rw [hc, if_neg Bool.false_ne_true, h2]
    exact ⟨_, rfl⟩
  · intro t
    unfold gen_items_list
    exact ⟨[], rfl⟩
  · intro t x rest ⟨s1, h1⟩ ⟨l, h2⟩
    unfold gen_items_list
    rw [h1, h2]
    exact ⟨s1 :: l, rfl⟩
  · intro fs t ⟨l, hl⟩
    unfold generate_object_schema
    rw [hl]
    exact ⟨_, rfl⟩
  · intro t
    unfold gen_properties
    exact ⟨[], rfl⟩
  · intro t k v rest ⟨s1, h1⟩ ⟨l, h2⟩
    unfold gen_properties
    rw [h1, h2]
    exact ⟨(k, s1) :: l, rfl⟩

theorem generate_schema_ok (value : Json) (tier : SchemaOutputTier) :
    generate_schema value tier = .ok (schemaOf value tier) := by
  obtain ⟨s, h⟩ := generate_schema_total value tier
  simp [schemaOf, h, Except.toOption]

theorem schemaOf_of_ok {value : Json} {tier : SchemaOutputTier} {s : Json}
    (h : generate_schema value tier = .ok s) : schemaOf value tier = s := by
  have h' := generate_schema_ok value tier
  rw [h] at h'
  exact (Except.ok.injEq _ _ ▸ h').symm

theorem gen_properties_eq (fields : List (String × Json)) (tier : SchemaOutputTier) :
    gen_properties fields tier = .ok (propsOf fields tier) := by
  induction fields with
  | nil =>
    unfold gen_properties
    rfl
  | cons p rest ih =>
    obtain ⟨k, v⟩ := p
    unfold gen_properties
    rw [generate_schema_ok, ih]
    rfl

theorem gen_items_list_eq (xs : List Json) (tier : SchemaOutputTier) :
    gen_items_list xs tier = .ok (itemsOf xs tier) := by
  induction xs with
  | nil =>
    unfold gen_items_list
    rfl
  | cons x rest ih =>
    unfold gen_items_list
    rw [generate_schema_ok, ih]
    rfl

/-! ## Unfolding lemmas for `schemaOf` -/

theorem schemaOf_str (s : String) (t : SchemaOutputTier) {x : Json}
    (h : generate_string_schema (.str s) t = .ok x) : schemaOf (.str s) t = x := by
  apply schemaOf_of_ok
  unfold generate_schema
  exact h

theorem schemaOf_num (n : JNumber) (t : SchemaOutputTier) {x : Json}
    (h : generate_number_schema n t = .ok x) : schemaOf (.num n) t = x := by
  apply schemaOf_of_ok
  unfold generate_schema
  exact h

theorem schemaOf_bool (b : Bool) (t : SchemaOutputTier) {x : Json}
    (h : generate_boolean_schema (.bool b) t = .ok x) : schemaOf (.bool b) t = x := by
  apply schemaOf_of_ok
  unfold generate_schema
  exact h

theorem schemaOf_obj (fs : List (String × Json)) (t : SchemaOutputTier) :
    schemaOf (.obj fs) t =
      (let schema := Json.obj [("type", .str "object"), ("properties", .obj [])]
       let schema :=
         match t with
         | .comprehensive | .expert =>
           schema.setField "$schema"
             (.str "https://json-schema.org/draft/2020-12/schema")
         | _ => schema
       let schema := schema.setField "properties" (.obj (propsOf fs t))
       let reqs := required_props fs t
       let schema :=
         if reqs.isEmpty then schema else schema.setField "required" (.arr reqs)
       match t with
       | .basic => schema
       | .standard => schema.setField "additionalProperties" (.bool true)
       | .comprehensive =>
         (schema.setField "additionalProperties" (.bool false)).setField
           "minProperties" (.num (.posInt 1))
       | .expert =>
         (((schema.setField "additionalProperties" (.bool false)).setField
           "minProperties" (.num (.posInt 1))).setField
           "title" (.str "Generated Object Schema")).setField
           "description" (.str "Auto-generated schema from JSON data")) := by
  apply schemaOf_of_ok
  unfold generate_schema generate_object_schema
  rw [gen_properties_eq]
  rfl

theorem schemaOf_arr_hom (x : Json) (rest : List Json) (t : SchemaOutputTier)
    (hc : ((get_array_item_types (x :: rest)).length == 1) = true) :
    schemaOf (.arr (x :: rest)) t =
      (let schema := (Json.obj [("type", .str "array")]).setField "items" (schemaOf x t)
       match t with
       | .basic => schema
       | .standard =>
         if (x :: rest : List Json).isEmpty then schema
         else schema.setField "minItems" (.num (.posInt 0))
       | .comprehensive =>
         if (x :: rest : List Json).isEmpty then schema
         else
           (schema.setField "minItems" (.num (.posInt 1))).setField
             "maxItems" (.num (.posInt ((x :: rest).length * 2)))
       | .expert =>
         if (x :: rest : List Json).isEmpty then schema
         else
           ((((schema.setField "minItems" (.num (.posInt 1))).setField
             "maxItems" (.num (.posInt ((x :: rest).length * 2)))).setField
             "uniqueItems" (.bool true)).setField
             "title" (.str "Generated Array Schema")).setField
             "description" (.str "Auto-generated array schema from JSON data")) := by
  apply schemaOf_of_ok
  unfold generate_schema generate_array_schema
  rw [hc, if_pos rfl, generate_schema_ok]
  rfl

theorem schemaOf_arr_het (x : Json) (rest : List Json) (t : SchemaOutputTier)
    (hc : ((get_array_item_types (x :: rest)).length == 1) = false) :
    schemaOf (.arr (x :: rest)) t =
      (let schema := (Json.obj [("type", .str "array")]).setField "items"
         (Json.obj [("oneOf", .arr (itemsOf (x :: rest) t))])
       match t with
       | .basic => schema
       | .standard =>
         if (x :: rest : List Json).isEmpty then schema
         else schema.setField "minItems" (.num (.posInt 0))
       | .comprehensive =>
         if (x :: rest : List Json).isEmpty then schema
         else
           (schema.setField "minItems" (.num (.posInt 1))).setField
             "maxItems" (.num (.posInt ((x :: rest).length * 2)))
       | .expert =>
         if (x :: rest : List Json).isEmpty then schema
         else
           ((((schema.setField "minItems" (.num (.posInt 1))).setField
             "maxItems" (.num (.posInt ((x :: rest).length * 2)))).setField
             "uniqueItems" (.bool true)).setField
             "title" (.str "Generated Array Schema")).setField
             "description" (.str "Auto-generated array schema from JSON data")) := by
  apply schemaOf_of_ok
  unfold generate_schema generate_array_schema
  rw [hc, if_neg Bool.false_ne_true, gen_items_list_eq]
  rfl

theorem strIsEmpty_false (s : String) (h : s ≠ "") : strIsEmpty s = false := by
  cases hs : strIsEmpty s
  · rfl
  · exfalso
    apply h
    unfold strIsEmpty at hs
    have hd : s.data = [] := by simpa using hs
    exact String.ext hd

theorem required_props_basic (fs : List (String × Json)) :
    required_props fs .basic = [] := by
  induction fs with
  | nil => rfl
  | cons p rest ih =>
    obtain ⟨k, v⟩ := p
    simp [required_props, ih]

theorem required_props_standard (fs : List (String × Json)) :
    required_props fs .standard =
      (fs.filter (fun p => ! p.2.is_null)).map (fun p => Json.str p.1) := by
  induction fs with
  | nil => rfl
  | cons p rest ih =>
    obtain ⟨k, v⟩ := p
    by_cases hv : v.is_null = true <;>
      simp [required_props, List.filter_cons, hv, ih]

theorem required_props_comprehensive (fs : List (String × Json)) :
    required_props fs .comprehensive = fs.map (fun p => Json.str p.1) := by
  induction fs with
  | nil => rfl
  | cons p rest ih =>
    obtain ⟨k, v⟩ := p
    simp [required_props, ih]

theorem required_props_expert (fs : List (String × Json)) :
    required_props fs .expert = fs.map (fun p => Json.str p.1) := by
  induction fs with
  | nil => rfl
  | cons p rest ih =>
    obtain ⟨k, v⟩ := p
    simp [required_props, ih]

/-! ## Claims -/

/-- C1: for every JSON value (of any of the six kinds, at any nesting
depth) and every tier, `generate_schema` returns `Ok`; it never returns an
error. -/
theorem C1_generate_schema_total (value : Json) (tier : SchemaOutputTier) :
    ∃ s, generate_schema value tier = .ok s :=
  generate_schema_total value tier

/-- C9: for every tier, `generate_schema` applied to the empty array
returns exactly a schema with `type` array and empty `items` and no other
fields. -/
theorem C9_empty_array (tier : SchemaOutputTier) :
    generate_schema (.arr []) tier =
      .ok (Json.obj [("type", .str "array"), ("items", .obj [])]) := by
  unfold generate_schema generate_array_schema
  rfl

/-- C10: at Expert tier, the schema of the empty string has
`minLength = 0`, `maxLength = 0` and a `title`, but no `examples`, no
`format` and no `pattern`, even though the digits/dash/space predicate is
vacuously true of the empty string. -/
theorem C10_empty_string_expert :
    (schemaOf (.str "") .expert).getField? "minLength" = some (.num (.posInt 0)) ∧
    (schemaOf (.str "") .expert).getField? "maxLength" = some (.num (.posInt 0)) ∧
    (schemaOf (.str "") .expert).getField? "title" =
      some (.str "Generated String Schema") ∧
    allDigitDashSpace "" = true ∧
    (schemaOf (.str "") .expert).getField? "examples" = none ∧
    (schemaOf (.str "") .expert).getField? "format" = none ∧
    (schemaOf (.str "") .expert).getField? "pattern" = none := by
  have h := schemaOf_str "" .expert rfl
  rw [h]
  have e1 : strIsEmpty "" = true := by decide
  have e2 : strByteLen "" = 0 := by decide
  have e3 : allDigitDashSpace "" = true := by decide
  simp [e1, e2, e3, Json.setField, setPair, Json.getField?, getPair]

/-- C3: at Expert tier, for every non-empty string at most one of
`format`/`pattern` is set, checked in priority order: `format = "email"`
iff the string contains both at-sign and dot; otherwise `format = "uri"`
iff it starts with "http"; otherwise the digits/dash/space pattern iff
every character is an ASCII digit, dash or space; otherwise neither. -/
theorem C3_string_format_priority (s : String) (h : s ≠ "") :
    ((strContainsChar s '@' && strContainsChar s '.') = true →
      (schemaOf (.str s) .expert).getField? "format" = some (.str "email") ∧
      (schemaOf (.str s) .expert).getField? "pattern" = none) ∧
    ((strContainsChar s '@' && strContainsChar s '.') = false →
      strStartsWith s "http" = true →
      (schemaOf (.str s) .expert).getField? "format" = some (.str "uri") ∧
      (schemaOf (.str s) .expert).getField? "pattern" = none) ∧
    ((strContainsChar s '@' && strContainsChar s '.') = false →
      strStartsWith s "http" = false →
      allDigitDashSpace s = true →
      (schemaOf (.str s) .expert).getField? "pattern" =
        some (.str "^[\\d\\-\\s]+$") ∧
      (schemaOf (.str s) .expert).getField? "format" = none) ∧
    ((strContainsChar s '@' && strContainsChar s '.') = false →
      strStartsWith s "http" = false →
      allDigitDashSpace s = false →
      (schemaOf (.str s) .expert).getField? "format" = none ∧
      (schemaOf (.str s) .expert).getField? "pattern" = none) := by
  have hE := strIsEmpty_false s h
  have hx := schemaOf_str s .expert rfl
  rw [hx]
  refine ⟨?_, ?_, ?_, ?_⟩
  · intro h1
    simp [hE, h1, Json.setField, setPair, Json.getField?, getPair]
  · intro h1 h2
    simp [hE, h1, h2, Json.setField, setPair, Json.getField?, getPair]
  · intro h1 h2 h3
    simp [hE, h1, h2, h3, Json.setField, setPair, Json.getField?, getPair]
  · intro h1 h2 h3
    simp [hE, h1, h2, h3, Json.setField, setPair, Json.getField?, getPair]

/-- Witness for C3 at the string "a@b.c". -/
theorem C3_witness :
    (schemaOf (.str "a@b.c") .expert).getField? "format" = some (.str "email") ∧
    (schemaOf (.str "a@b.c") .expert).getField? "pattern" = none := by
  have h := C3_string_format_priority "a@b.c" (by decide)
  exact h.1 (by decide)

/-- C6: at Comprehensive and Expert tiers, for every input object
(including the empty one) the object schema has `minProperties = 1`,
`additionalProperties = false`, and the draft 2020-12 schema URI. -/
theorem C6_object_strict_tiers (fs : List (String × Json)) (t : SchemaOutputTier)
    (h : t = .comprehensive ∨ t = .expert) :
    (schemaOf (.obj fs) t).getField? "minProperties" = some (.num (.posInt 1)) ∧
    (schemaOf (.obj fs) t).getField? "additionalProperties" = some (.bool false) ∧
    (schemaOf (.obj fs) t).getField? "$schema" =
      some (.str "https://json-schema.org/draft/2020-12/schema") := by
  rw [schemaOf_obj]
  rcases h with h | h <;> subst h
  · by_cases hr : (required_props fs .comprehensive).isEmpty = true <;>
      simp [hr, Json.setField, setPair, Json.getField?, getPair]
  · by_cases hr : (required_props fs .expert).isEmpty = true <;>
      simp [hr, Json.setField, setPair, Json.getField?, getPair]

/-- Witness for C6: the empty object at Comprehensive tier. -/
theorem C6_witness :
    (schemaOf (.obj []) .comprehensive).getField? "minProperties" =
      some (.num (.posInt 1)) ∧
    (schemaOf (.obj []) .comprehensive).getField? "additionalProperties" =
      some (.bool false) ∧
    (schemaOf (.obj []) .comprehensive).getField? "$schema" =
      some (.str "https://json-schema.org/draft/2020-12/schema") :=
  C6_object_strict_tiers [] .comprehensive (Or.inl rfl)

/-- C8: at Standard tier the `required` array holds exactly the keys whose
values are not null, in order, and the field is absent when that list is
empty. -/
theorem C8_standard_required (fs : List (String × Json)) :
    ((fs.filter (fun p => ! p.2.is_null)).map (fun p => Json.str p.1) ≠ [] →
      (schemaOf (.obj fs) .standard).getField? "required" =
        some (.arr ((fs.filter (fun p => ! p.2.is_null)).map (fun p => Json.str p.1)))) ∧
    ((fs.filter (fun p => ! p.2.is_null)).map (fun p => Json.str p.1) = [] →
      (schemaOf (.obj fs) .standard).getField? "required" = none) := by
  have hreq := required_props_standard fs
  rw [schemaOf_obj]
  constructor
  · intro hne
    have hr : (required_props fs .standard).isEmpty = false := by
      rw [hreq]
      simpa [List.isEmpty_iff] using hne
    simp only [hr, Bool.false_eq_true, if_false]
    simp [hreq, Json.setField, setPair, Json.getField?, getPair]
  · intro hemp
    have hr : (required_props fs .standard).isEmpty = true := by
      rw [hreq, hemp]
      rfl
    simp only [hr, if_true]
    simp [Json.setField, setPair, Json.getField?, getPair]

/-- Witness for C8: one non-null and one null entry. -/
theorem C8_witness :
    (schemaOf (.obj [("a", Json.bool true), ("b", Json.null)]) .standard).getField?
      "required" = some (.arr [.str "a"]) := by
  have h := (C8_standard_required [("a", Json.bool true), ("b", Json.null)]).1
    (by simp [Json.is_null])
  simpa [Json.is_null] using h

theorem topKeys_obj_basic (fs : List (String × Json)) (a : String) :
    a ∈ (schemaOf (.obj fs) .basic).topKeys ↔ a = "type" ∨ a = "properties" := by
  rw [schemaOf_obj]
  simp [required_props_basic, Json.setField, setPair, Json.topKeys]

theorem topKeys_obj_standard (fs : List (String × Json)) (a : String) :
    a ∈ (schemaOf (.obj fs) .standard).topKeys ↔
      (a = "type" ∨ a = "properties") ∨
      (a = "required" ∧ required_props fs .standard ≠ []) ∨
      a = "additionalProperties" := by
  rw [schemaOf_obj]
  by_cases hr : (required_props fs .standard).isEmpty = true
  · have hnil : required_props fs .standard = [] := by
      simpa [List.isEmpty_iff] using hr
    simp only [hr, if_true]
    simp [hnil, Json.setField, setPair, Json.topKeys]
    tauto
  · have hr' : (required_props fs .standard).isEmpty = false := by
      simpa using hr
    have hne : required_props fs .standard ≠ [] := by
      simpa [List.isEmpty_iff] using hr
    simp only [hr', Bool.false_eq_true, if_false]
    simp [hne, Json.setField, setPair, Json.topKeys]
    tauto

theorem topKeys_obj_comprehensive (fs : List (String × Json)) (a : String) :
    a ∈ (schemaOf (.obj fs) .comprehensive).topKeys ↔
      (a = "type" ∨ a = "properties" ∨ a = "$schema") ∨
      (a = "required" ∧ fs ≠ []) ∨
      (a = "additionalProperties" ∨ a = "minProperties") := by
  rw [schemaOf_obj]
  by_cases hf : fs = []
  · subst hf
    simp [required_props, Json.setField, setPair, Json.topKeys]
    tauto
  · have hr : (required_props fs .comprehensive).isEmpty = false := by
      rw [required_props_comprehensive]
      simp [List.isEmpty_iff, hf]
    simp only [hr, Bool.false_eq_true, if_false]
    simp [hf, Json.setField, setPair, Json.topKeys]
    tauto

theorem topKeys_obj_expert (fs : List (String × Json)) (a : String) :
    a ∈ (schemaOf (.obj fs) .expert).topKeys ↔
      (a = "type" ∨ a = "properties" ∨ a = "$schema") ∨
      (a = "required" ∧ fs ≠ []) ∨
      (a = "additionalProperties" ∨ a = "minProperties" ∨
        a = "title" ∨ a = "description") := by
  rw [schemaOf_obj]
  by_cases hf : fs = []
  · subst hf
    simp [required_props, Json.setField, setPair, Json.topKeys]
    tauto
  · have hr : (required_props fs .expert).isEmpty = false := by
      rw [required_props_expert]
      simp [List.isEmpty_iff, hf]
    simp only [hr, Bool.false_eq_true, if_false]
    simp [hf, Json.setField, setPair, Json.topKeys]
    tauto

theorem required_props_standard_ne_nil (fs : List (String × Json))
    (h : required_props fs .standard ≠ []) : fs ≠ [] := by
  intro hf
  subst hf
  exact h rfl

/-- C7: for every input object and every pair of adjacent tiers, the set
of top-level field names of the object schema at the stricter tier
contains every field name produced at the weaker tier. -/
theorem C7_tier_field_superset (fs : List (String × Json))
    (t1 t2 : SchemaOutputTier) (h : tier_adjacent t1 t2 = true) (k : String)
    (hk : k ∈ (schemaOf (.obj fs) t1).topKeys) :
    k ∈ (schemaOf (.obj fs) t2).topKeys := by
  cases t1 <;> cases t2 <;> simp [tier_adjacent] at h
  · rw [topKeys_obj_basic] at hk
    rw [topKeys_obj_standard]
    tauto
  · rw [topKeys_obj_standard] at hk
    rw [topKeys_obj_comprehensive]
    rcases hk with hk | ⟨hk, hne⟩ | hk
    · tauto
    · exact Or.inr (Or.inl ⟨hk, required_props_standard_ne_nil fs hne⟩)
    · tauto
  · rw [topKeys_obj_comprehensive] at hk
    rw [topKeys_obj_expert]
    tauto

/-- Witness for C7: the pair Basic, Standard at a one-field object. -/
theorem C7_witness :
    "type" ∈ (schemaOf (.obj [("a", Json.null)]) .standard).topKeys := by
  apply C7_tier_field_superset [("a", Json.null)] .basic .standard rfl "type"
  rw [topKeys_obj_basic]
  exact Or.inl rfl

theorem schemaOf_null (t : SchemaOutputTier) :
    schemaOf .null t = Json.obj [("type", .str "null")] := by
  apply schemaOf_of_ok
  unfold generate_schema
  rfl

theorem schemaOf_arr_nil (t : SchemaOutputTier) :
    schemaOf (.arr []) t = Json.obj [("type", .str "array"), ("items", .obj [])] := by
  apply schemaOf_of_ok
  unfold generate_schema generate_array_schema
  rfl

/-- No generated schema carries a top-level `oneOf` field: the `oneOf`
wrapper only ever appears nested inside an array schema's `items`. -/
theorem schemaOf_oneOf_none (j : Json) (t : SchemaOutputTier) :
    (schemaOf j t).getField? "oneOf" = none := by
  cases j with
  | null =>
    rw [schemaOf_null]
    rfl
  | bool b =>
    rw [schemaOf_bool b t rfl]
    cases t <;> simp [Json.setField, setPair, Json.getField?, getPair]
  | num n =>
    rw [schemaOf_num n t rfl]
    cases t <;>
      by_cases h0 : (n.is_i64 || n.is_u64) = true <;>
        cases h1 : n.as_i64 <;>
          cases h2 : n.as_f64 <;>
            simp [h0, h1, h2, Json.setField, setPair, Json.getField?, getPair]
  | str s =>
    rw [schemaOf_str s t rfl]
    cases t <;>
      by_cases e0 : strIsEmpty s = true <;>
        by_cases e1 : (strContainsChar s '@' && strContainsChar s '.') = true <;>
          by_cases e2 : strStartsWith s "http" = true <;>
            by_cases e3 : allDigitDashSpace s = true <;>
              simp [e0, e1, e2, e3, Json.setField, setPair, Json.getField?, getPair]
  | arr xs =>
    cases xs with
    | nil =>
      rw [schemaOf_arr_nil]
      rfl
    | cons x rest =>
      cases hc : ((get_array_item_types (x :: rest)).length == 1)
      · rw [schemaOf_arr_het x rest t hc]
        cases t <;> simp [Json.setField, setPair, Json.getField?, getPair]
      · rw [schemaOf_arr_hom x rest t hc]
        cases t <;> simp [Json.setField, setPair, Json.getField?, getPair]
  | obj fs =>
    rw [schemaOf_obj]
    cases t with
    | basic =>
      by_cases hr : (required_props fs .basic).isEmpty = true <;>
        simp [hr, Json.setField, setPair, Json.getField?, getPair]
    | standard =>
      by_cases hr : (required_props fs .standard).isEmpty = true <;>
        simp [hr, Json.setField, setPair, Json.getField?, getPair]
    | comprehensive =>
      by_cases hr : (required_props fs .comprehensive).isEmpty = true <;>
        simp [hr, Json.setField, setPair, Json.getField?, getPair]
    | expert =>
      by_cases hr : (required_props fs .expert).isEmpty = true <;>
        simp [hr, Json.setField, setPair, Json.getField?, getPair]

/-- C2: for a non-empty array, if all elements share one top-level kind
tag then `items` is the schema of the first element alone, with no
`oneOf`; if more than one kind occurs, `items` is a `oneOf` with exactly
one entry per element, in the original order, with no deduplication. -/
theorem C2_array_items (x : Json) (rest : List Json) (t : SchemaOutputTier) :
    ((get_array_item_types (x :: rest)).length = 1 →
      (schemaOf (.arr (x :: rest)) t).getField? "items" = some (schemaOf x t) ∧
      (schemaOf x t).getField? "oneOf" = none) ∧
    ((get_array_item_types (x :: rest)).length ≠ 1 →
      (schemaOf (.arr (x :: rest)) t).getField? "items" =
        some (Json.obj [("oneOf", .arr (itemsOf (x :: rest) t))]) ∧
      (itemsOf (x :: rest) t).length = (x :: rest).length) := by
  constructor
  · intro h1
    have hc : ((get_array_item_types (x :: rest)).length == 1) = true := by
      simp [h1]
    refine ⟨?_, schemaOf_oneOf_none x t⟩
    rw [schemaOf_arr_hom x rest t hc]
    cases t <;> simp [Json.setField, setPair, Json.getField?, getPair]
  · intro h1
    have hc : ((get_array_item_types (x :: rest)).length == 1) = false := by
      simp [h1]
    constructor
    · rw [schemaOf_arr_het x rest t hc]
      cases t <;> simp [Json.setField, setPair, Json.getField?, getPair]
    · simp [itemsOf]

/-- Witness for C2: a homogeneous and a heterogeneous array. -/
theorem C2_witness :
    (schemaOf (.arr [Json.null]) .basic).getField? "items" =
      some (schemaOf Json.null .basic) ∧
    (schemaOf (.arr [Json.null, Json.bool true]) .basic).getField? "items" =
      some (Json.obj [("oneOf", .arr (itemsOf [Json.null, Json.bool true] .basic))]) := by
  constructor
  · exact ((C2_array_items Json.null [] .basic).1 (by decide)).1
  · exact ((C2_array_items Json.null [Json.bool true] .basic).2 (by decide)).1

/-- C4 counterexample: at Standard tier, for the u64 input
18446744073709551615 (`u64::MAX`, not representable as `i64`), the source
falls into the `as_f64` branch and `minimum` becomes the f64 rounding
18446744073709551616 — not the literal input value. -/
theorem C4_counterexample :
    (schemaOf (.num (.posInt 18446744073709551615)) .standard).getField?
      "minimum" = some (.num (.float 18446744073709551616)) ∧
    JNumber.toRat (.float 18446744073709551616) ≠
      JNumber.toRat (.posInt 18446744073709551615) := by
  constructor
  · rw [schemaOf_num _ .standard rfl]
    have h1 : JNumber.as_i64 (.posInt 18446744073709551615) = none := by decide
    have h2 : JNumber.as_f64 (.posInt 18446744073709551615) =
        some ((18446744073709551616 : ℚ)) := by
      have hu : u64ToF64 18446744073709551615 = 18446744073709551616 := by decide
      rw [show JNumber.as_f64 (.posInt 18446744073709551615) =
        some ((u64ToF64 18446744073709551615 : Nat) : ℚ) from rfl, hu]
      norm_num
    simp [h1, h2, JNumber.is_i64, JNumber.is_u64, Json.setField, setPair,
      Json.getField?, getPair]
  · simp [JNumber.toRat]

/-- C4 (amended): at Standard tier, `minimum` is set to the literal input
value for every number representable as `i64` and for every number stored
as a float; u64-only inputs (above `i64::MAX`) instead receive the f64
rounding of the value. -/
theorem C4_standard_minimum_amended (n : JNumber)
    (h : n.as_i64.isSome = true ∨ n.isFloat = true) :
    ∃ m : JNumber, (schemaOf (.num n) .standard).getField? "minimum" =
      some (.num m) ∧ m.toRat = n.toRat := by
  cases n with
  | posInt m =>
    have hm : m ≤ i64Max := by
      rcases h with h | h
      · by_cases hm : m ≤ i64Max
        · exact hm
        · exfalso
          simp [JNumber.as_i64, hm] at h
      · exact absurd h (by simp [JNumber.isFloat])
    refine ⟨jsonFromI64 (m : Int), ?_, ?_⟩
    · rw [schemaOf_num _ .standard rfl]
      have h1 : JNumber.as_i64 (.posInt m) = some (m : Int) := by
        simp [JNumber.as_i64, hm]
      simp [h1, JNumber.is_i64, JNumber.is_u64, Json.setField, setPair,
        Json.getField?, getPair]
    · have hpos : ¬ ((m : Int) < 0) := by
        simp
      simp [jsonFromI64, hpos, JNumber.toRat]
  | negInt i =>
    refine ⟨jsonFromI64 i, ?_, ?_⟩
    · rw [schemaOf_num _ .standard rfl]
      simp [JNumber.as_i64, JNumber.is_i64, JNumber.is_u64, Json.setField,
        setPair, Json.getField?, getPair]
    · by_cases hi : i < 0
      · simp [jsonFromI64, hi, JNumber.toRat]
      · have h0 : 0 ≤ i := by omega
        simp [jsonFromI64, hi, JNumber.toRat]
        exact_mod_cast congrArg (fun z : Int => (z : ℚ)) (Int.toNat_of_nonneg h0)
  | float q =>
    refine ⟨.float q, ?_, rfl⟩
    rw [schemaOf_num _ .standard rfl]
    simp [JNumber.as_i64, JNumber.as_f64, JNumber.is_i64, JNumber.is_u64,
      Json.setField, setPair, Json.getField?, getPair]

/-- Witness for the amended C4 at the i64 input 5. -/
theorem C4_amended_witness :
    ∃ m : JNumber, (schemaOf (.num (.posInt 5)) .standard).getField? "minimum" =
      some (.num m) ∧ m.toRat = JNumber.toRat (.posInt 5) :=
  C4_standard_minimum_amended (.posInt 5) (Or.inl (by decide))

/-- C5 counterexample: the u64 input 9223372036854775808 (2 ^ 63) is
classified as an integer (`type` is "integer"), yet at Expert tier its
schema has no `multipleOf` and carries the title "Generated Number
Schema", because the `as_i64` probe fails and the float branch runs. -/
theorem C5_counterexample :
    ((JNumber.posInt 9223372036854775808).is_i64 ||
      (JNumber.posInt 9223372036854775808).is_u64) = true ∧
    (schemaOf (.num (.posInt 9223372036854775808)) .expert).getField? "type" =
      some (.str "integer") ∧
    (schemaOf (.num (.posInt 9223372036854775808)) .expert).getField?
      "multipleOf" = none ∧
    (schemaOf (.num (.posInt 9223372036854775808)) .expert).getField? "title" =
      some (.str "Generated Number Schema") := by
  have h1 : JNumber.as_i64 (.posInt 9223372036854775808) = none := by decide
  obtain ⟨q, hq⟩ : ∃ q, JNumber.as_f64 (.posInt 9223372036854775808) = some q :=
    ⟨_, rfl⟩
  refine ⟨by decide, ?_, ?_, ?_⟩ <;>
    · rw [schemaOf_num _ .expert rfl]
      simp [h1, hq, JNumber.is_u64, JNumber.is_i64, Json.setField, setPair,
        Json.getField?, getPair]

/-- C5 (amended): at Expert tier, inputs representable as `i64` get
`multipleOf = 1` and the integer title; every other input — floats, but
also u64-only integers despite their integer classification — gets no
`multipleOf` and the number title. -/
theorem C5_expert_number_amended (n : JNumber) :
    (n.as_i64.isSome = true →
      (schemaOf (.num n) .expert).getField? "multipleOf" =
        some (.num (.posInt 1)) ∧
      (schemaOf (.num n) .expert).getField? "title" =
        some (.str "Generated Integer Schema")) ∧
    (n.as_i64 = none →
      (schemaOf (.num n) .expert).getField? "multipleOf" = none ∧
      (schemaOf (.num n) .expert).getField? "title" =
        some (.str "Generated Number Schema")) := by
  constructor
  · intro hs
    obtain ⟨v, hv⟩ := Option.isSome_iff_exists.mp hs
    rw [schemaOf_num n .expert rfl]
    by_cases h0 : (n.is_i64 || n.is_u64) = true <;>
      simp [h0, hv, Json.setField, setPair, Json.getField?, getPair]
  · intro hn
    obtain ⟨q, hq⟩ : ∃ q, n.as_f64 = some q := by
      cases n with
      | posInt m => exact ⟨_, rfl⟩
      | negInt i => exact ⟨_, rfl⟩
      | float q => exact ⟨q, rfl⟩
    rw [schemaOf_num n .expert rfl]
    by_cases h0 : (n.is_i64 || n.is_u64) = true <;>
      simp [h0, hn, hq, Json.setField, setPair, Json.getField?, getPair]

/-- Witness for the amended C5: integer 42 and float 5/2. -/
theorem C5_amended_witness :
    (schemaOf (.num (.posInt 42)) .expert).getField? "multipleOf" =
      some (.num (.posInt 1)) ∧
    (schemaOf (.num (.float (5 / 2))) .expert).getField? "multipleOf" = none := by
  constructor
  · exact ((C5_expert_number_amended (.posInt 42)).1 (by decide)).1
  · exact ((C5_expert_number_amended (.float (5 / 2))).2 rfl).1

end SchemaJen
